import Mathlib

/-!
Shallow embedding of the entra-exporter collector/cache/refresh subsystem.

The definitions below are transcribed from the Go sources:
  - src/collector/users.go (UsersCollector.collect, UsersCollector.Collect,
    BaseCollector.GetGraphClient, BaseCollector.StartCacheInvalidator)
  - src/unnamed/part_004 (DevicesCollector.collect, GeneralCollector.collect,
    GeneralCollector.Collect)
  - src/unnamed/part_003 (CollectorConfig.IsEnabled)
  - src/unnamed/part_000 (main collector wiring)

External effects (Microsoft Graph HTTP calls, Azure credential acquisition)
are modelled as explicit environment parameters; the cache maps and metric
vectors are modelled as association lists with Go map overwrite semantics.
-/

namespace EntraExporter

/-! ## Paginated Graph responses

`Page` models a Graph collection response as observed by the collectors:
`value` is `GetValue()` (a possibly nil slice) and `odataNextLink` is
`GetOdataNextLink()` (a possibly nil string pointer). -/

structure Page (α : Type) where
  value : Option (List α)
  odataNextLink : Option String
  deriving DecidableEq

/-- Loop guard of the manual pagination loop
(`result.GetOdataNextLink() != nil && len(*result.GetOdataNextLink()) > 0`,
src/collector/users.go line 168). -/
def hasNextLink {α : Type} (p : Page α) : Bool :=
  match p.odataNextLink with
  | none => false
  | some s => decide (0 < s.length)

/-- Query parameters of the first-page request
(`UsersRequestBuilderGetQueryParameters` with `Top` and `Select`,
src/collector/users.go lines 133-138; the devices collector builds the
same shape with its own field list). -/
structure GraphQuery where
  top : Int
  select : List String
  deriving DecidableEq

/-- First-page request of the users collector: page size 100 and the six
selected fields (src/collector/users.go lines 133-138). -/
def usersFirstRequest : GraphQuery :=
  { top := 100
    select := ["id", "userPrincipalName", "displayName", "accountEnabled",
               "userType", "creationType"] }

/-- First-page request of the devices collector: page size 100 and the ten
selected fields (src/unnamed/part_004 lines 322-331). -/
def devicesFirstRequest : GraphQuery :=
  { top := 100
    select := ["id", "displayName", "operatingSystem", "operatingSystemVersion",
               "accountEnabled", "trustType", "enrollmentType", "deviceCategory",
               "managementType", "registrationDateTime"] }

/-- How the manual pagination loop terminated. -/
inductive LoopExit where
  | normal
  | errBreak
  | fuelOut
  deriving DecidableEq

/-- Result of the manual pagination loop: the accumulated entity list, the
number of `scrapeErrors` increments, the requests issued (in order, each the
request configuration passed to `client.Users().Get` / `client.Devices().Get`:
`none` is the nil configuration), and how the loop exited. -/
structure LoopRes (α : Type) where
  acc : List α
  errInc : Nat
  requests : List (Option GraphQuery)
  exit : LoopExit
  deriving DecidableEq

/-- The manual pagination loop of `UsersCollector.collect`
(src/collector/users.go lines 168-182) and `DevicesCollector.collect`
(src/unnamed/part_004 lines 361-375).

While the current result carries a non-empty next link, the code declares a
nil request configuration (`var nextReqConfig *...GetRequestConfiguration`)
and calls `Get(context.Background(), nextReqConfig)` with it, so every
request issued inside the loop is the `none` request: the next link itself is
never passed on. A fetch error increments the error counter and breaks out of
the loop; a fetched page has its (possibly nil) value appended.

The environment `env i req` gives the response of the i-th HTTP call of the
cycle; the Go loop is unbounded, so the embedding spends one unit of `fuel`
per iteration and reports `LoopExit.fuelOut` when the loop is still running
after `fuel` iterations. -/
def pageLoop {α : Type} (env : Nat → Option GraphQuery → Except String (Page α)) :
    Nat → Nat → Page α → List α → LoopRes α
  | 0, _, result, acc =>
    if hasNextLink result then ⟨acc, 0, [], LoopExit.fuelOut⟩
    else ⟨acc, 0, [], LoopExit.normal⟩
  | fuel + 1, i, result, acc =>
    if hasNextLink result then
      match env i none with
      | Except.error _ => ⟨acc, 1, [none], LoopExit.errBreak⟩
      | Except.ok r =>
        let rest := pageLoop env fuel (i + 1) r (acc ++ r.value.getD [])
        ⟨rest.acc, rest.errInc, none :: rest.requests, rest.exit⟩
    else ⟨acc, 0, [], LoopExit.normal⟩

/-- Observable outcome of one tenant iteration of `collect`:
the requests issued, the number of `scrapeErrors` increments, the write to
the snapshot cache (`none` when `continue` skipped the write, or when the
pagination loop never terminated), and whether the scrape duration and
last-scrape-time metrics were recorded. -/
structure CollectTrace (α : Type) where
  requests : List (Option GraphQuery)
  scrapeErrorsInc : Nat
  cacheWrite : Option (List α)
  scrapeMetricsRecorded : Bool
  deriving DecidableEq

/-- One tenant iteration of `UsersCollector.collect`
(src/collector/users.go lines 120-193) and `DevicesCollector.collect`
(src/unnamed/part_004 lines 307-386); the two bodies are line-for-line
identical up to the entity type and field list.

`client` is the outcome of `GetGraphClient` (modelled separately): on error
the code increments the error counter and continues to the next tenant. On a
first-page error it likewise increments and continues. Otherwise the first
page value is appended to the nil slice, the pagination loop runs, and -
whether the loop finished normally or broke on an error - the accumulated
list is stored in the cache and the scrape metrics are recorded. -/
def collectPaginated {α : Type} (firstReq : GraphQuery) (client : Except String Unit)
    (env : Nat → Option GraphQuery → Except String (Page α)) (fuel : Nat) :
    CollectTrace α :=
  match client with
  | Except.error _ => ⟨[], 1, none, false⟩
  | Except.ok _ =>
    match env 0 (some firstReq) with
    | Except.error _ => ⟨[some firstReq], 1, none, false⟩
    | Except.ok result =>
      let lr := pageLoop env fuel 1 result (result.value.getD [])
      if lr.exit = LoopExit.fuelOut then
        ⟨some firstReq :: lr.requests, lr.errInc, none, false⟩
      else
        ⟨some firstReq :: lr.requests, lr.errInc, some lr.acc, true⟩

/-- Effect of one tenant iteration on that tenant entry of the snapshot cache
(`c.usersList[tenantID] = usersList`, src/collector/users.go line 186): the
entry is overwritten when the write executed and retained otherwise. -/
def applyCycle {α : Type} (prev : Option (List α)) (tr : CollectTrace α) :
    Option (List α) :=
  match tr.cacheWrite with
  | some l => some l
  | none => prev

/-! ## The background refresh loop (`BaseCollector.StartCacheInvalidator`)

Model of src/collector/users.go lines 396-432: the spawned goroutine loops
forever; each iteration wraps `collect()` in an inner function whose deferred
`recover()` catches any panic raised during the cycle and logs it, after
which the loop falls through to `time.Sleep(c.scrapeTime)` and starts the
next cycle. (An outer deferred `recover()` additionally guards the loop body
itself; it is never reached for a panic inside `collect()` because the inner
recover consumes it first.) -/

/-- Outcome of one `collect()` invocation: it returns normally or panics. -/
inductive CycleResult where
  | ok
  | panicked (msg : String)
  deriving DecidableEq

/-- Observable events of the background loop, in order. -/
inductive LoopEvent where
  | collectRun
  | panicRecovered (msg : String)
  | slept (scrapeTime : Int)
  deriving DecidableEq

/-- Event trace of the background loop over a finite schedule of cycle
outcomes: each scheduled cycle runs `collect()`; a panicking cycle is caught
by the deferred `recover()` of the per-cycle wrapper function; in either case
the loop then sleeps for the configured scrape interval and proceeds to the
next cycle (src/collector/users.go lines 412-430). -/
def invalidatorTrace (scrapeTime : Int) : List CycleResult → List LoopEvent
  | [] => []
  | CycleResult.ok :: rest =>
      LoopEvent.collectRun :: LoopEvent.slept scrapeTime ::
        invalidatorTrace scrapeTime rest
  | CycleResult.panicked m :: rest =>
      LoopEvent.collectRun :: LoopEvent.panicRecovered m ::
        LoopEvent.slept scrapeTime :: invalidatorTrace scrapeTime rest

/-- Recognizes the start of a collect cycle in a loop trace. -/
def isRun : LoopEvent → Bool
  | LoopEvent.collectRun => true
  | _ => false

/-- Number of collect cycles that actually ran in a loop trace. -/
def countCycles (tr : List LoopEvent) : Nat :=
  (tr.filter isRun).length

/-! ## The per-tenant Graph client factory (`BaseCollector.GetGraphClient`)

Model of src/collector/users.go lines 269-358. The `graphClientsLock`
RWMutex serializes the slow path, so a set of (possibly concurrent) calls is
modelled as a sequence of state transitions; the read-locked fast path and
the re-check under the write lock collapse to a single cache lookup per
call. Client instances are identified by construction order: the n-th
`NewGraphServiceClient` call of the process yields instance `n`, and
`constructions` counts them. -/

/-- Errors surfaced by `GetGraphClient`, one constructor per `return nil,
fmt.Errorf(...)` site (src/collector/users.go lines 316, 333, 341, 348). -/
inductive ClientError where
  | credentialError (msg : String)
  | tokenError (msg : String)
  | authProviderError (msg : String)
  | adapterError (msg : String)
  deriving DecidableEq

/-- External collaborators of `GetGraphClient`: the ambient
`AZURE_TENANT_ID` environment variable and the outcomes of the Azure
identity and Kiota constructors, the tenant-dependent ones as functions of
the effective tenant id. -/
structure AzEnv where
  azureTenantId : String
  newCredential : String → Except String Unit
  getToken : String → Except String Unit
  newAuthProvider : Except String Unit
  newAdapter : Except String Unit

/-- The client cache (`graphClients` map, keyed by tenant id, Go map
overwrite semantics via cons) together with the process-wide count of client
constructions. -/
structure ClientCacheState where
  clients : List (String × Nat)
  constructions : Nat
  deriving DecidableEq

/-- Cache lookup (`client, exists := c.graphClients[tenantID]`). -/
def lookupClient (s : ClientCacheState) (t : String) : Option Nat :=
  match s.clients.find? (fun p => p.1 == t) with
  | some p => some p.2
  | none => none

/-- Tenant resolution inside the slow path (src/collector/users.go lines
291-295): an empty tenant id is replaced by the ambient environment tenant.
Note that this happens after both cache lookups, which used the original
(possibly empty) tenant id. -/
def resolveTenant (env : AzEnv) (t : String) : String :=
  if t = "" then env.azureTenantId else t

/-- `BaseCollector.GetGraphClient` (src/collector/users.go lines 269-358):
fast-path cache lookup under the original tenant id; on a miss, resolve the
effective tenant, create and validate a credential, create the auth provider
and request adapter, construct the client and store it in the cache under
the resolved tenant id. Every failure returns without touching the cache. -/
def getGraphClient (env : AzEnv) (s : ClientCacheState) (t : String) :
    Except ClientError Nat × ClientCacheState :=
  match lookupClient s t with
  | some cl => (Except.ok cl, s)
  | none =>
    let tid := resolveTenant env t
    match env.newCredential tid with
    | Except.error m => (Except.error (ClientError.credentialError m), s)
    | Except.ok _ =>
      match env.getToken tid with
      | Except.error m => (Except.error (ClientError.tokenError m), s)
      | Except.ok _ =>
        match env.newAuthProvider with
        | Except.error m => (Except.error (ClientError.authProviderError m), s)
        | Except.ok _ =>
          match env.newAdapter with
          | Except.error m => (Except.error (ClientError.adapterError m), s)
          | Except.ok _ =>
            let cl := s.constructions
            (Except.ok cl, ⟨(tid, cl) :: s.clients, s.constructions + 1⟩)

/-- An environment whose identity-provider constructors all succeed. -/
def envAllOk (env : AzEnv) : Prop :=
  (∀ u, env.newCredential u = Except.ok ()) ∧
  (∀ u, env.getToken u = Except.ok ()) ∧
  env.newAuthProvider = Except.ok () ∧
  env.newAdapter = Except.ok ()

/-! ## Users rendering (`UsersCollector.Collect`) -/

/-- A cached user record as stored by the msgraph SDK: every selected field
is a possibly nil pointer (src/collector/users.go lines 83-107 read them via
`GetId`, `GetUserPrincipalName`, `GetDisplayName`, `GetAccountEnabled`,
`GetUserType`, `GetCreationType`). -/
structure UserRecord where
  id : Option String
  userPrincipalName : Option String
  displayName : Option String
  accountEnabled : Option Bool
  userType : Option String
  creationType : Option String
  deriving DecidableEq

/-- Label values of one `entraid_users_info` sample. -/
structure UserInfoLabels where
  tenantId : String
  userId : String
  userPrincipalName : String
  displayName : String
  accountEnabled : String
  userType : String
  creationType : String
  deriving DecidableEq

/-- Rendering of one user into its `entraid_users_info` sample
(src/collector/users.go lines 83-107): `accountEnabled` defaults to the
label value "false" and is "true" only when the pointer is non-nil and true;
`userType` and `creationType` default to "unknown"; but `id`,
`userPrincipalName` and `displayName` are dereferenced unconditionally
(`*user.GetId()` etc.), so a record in which any of those three is nil makes
rendering fault with a nil-pointer dereference, modelled as `none`. -/
def renderUserInfo (tenantId : String) (u : UserRecord) : Option UserInfoLabels :=
  let accountEnabled := match u.accountEnabled with
    | some true => "true"
    | _ => "false"
  let userType := u.userType.getD "unknown"
  let creationType := u.creationType.getD "unknown"
  match u.id, u.userPrincipalName, u.displayName with
  | some uid, some upn, some dn =>
      some ⟨tenantId, uid, upn, dn, accountEnabled, userType, creationType⟩
  | _, _, _ => none

/-- The `entraid_users_total` value emitted for a cached tenant list
(`c.usersTotal.WithLabelValues(tenantID).Set(float64(len(usersList)))`,
src/collector/users.go line 81). -/
def renderUsersTotal (l : List UserRecord) : Nat :=
  l.length

/-! ## The general collector (`GeneralCollector.collect` / `Collect`)

Model of src/unnamed/part_004 lines 442-533. Each cycle builds a fresh stats
map for the tenant out of five independent count sub-fetches and stores it
wholesale; the render path sets one `entraid_stats` gauge child per stored
entry. Gauge children of a Prometheus GaugeVec persist until explicitly
deleted, so a child set in an earlier scrape stays exported (with its old
value) when a later cycle stores no entry for that metric name. -/

/-- The five count sub-fetches of the general collector, in source order. -/
inductive StatKind where
  | users
  | devices
  | applications
  | servicePrincipals
  | groups
  deriving DecidableEq

/-- Stats-map key written for each sub-fetch
(src/unnamed/part_004 lines 483, 492, 501, 510, 519). -/
def statKey : StatKind → String
  | StatKind.users => "user_count"
  | StatKind.devices => "device_count"
  | StatKind.applications => "application_count"
  | StatKind.servicePrincipals => "service_principal_count"
  | StatKind.groups => "group_count"

/-- The sub-fetches in the order the source performs them. -/
def statKinds : List StatKind :=
  [StatKind.users, StatKind.devices, StatKind.applications,
   StatKind.servicePrincipals, StatKind.groups]

/-- One tenant iteration of `GeneralCollector.collect` after the client was
obtained (src/unnamed/part_004 lines 474-525): a fresh stats map is built;
each sub-fetch that errors increments the error counter and contributes no
entry; a sub-fetch whose page carries no `@odata.count` contributes no entry
either; a counted sub-fetch appends its named entry. Returns the stats map
stored for the tenant and the number of error-counter increments. -/
def collectGeneralTenant (env : StatKind → Except String (Option Int)) :
    List (String × Int) × Nat :=
  statKinds.foldl
    (fun acc k =>
      match env k with
      | Except.error _ => (acc.1, acc.2 + 1)
      | Except.ok none => acc
      | Except.ok (some n) => (acc.1 ++ [(statKey k, n)], acc.2))
    ([], 0)

/-- Lookup in a stored stats map. -/
def lookupStat : List (String × Int) → String → Option Int
  | [], _ => none
  | p :: rest, key => if p.1 = key then some p.2 else lookupStat rest key

/-- State of the `entraid_stats` GaugeVec: the most recent `Set` per label
pair wins, children persist until deleted (and this collector never deletes
them). -/
def gaugeSet (g : List ((String × String) × Int)) (tenant metric : String)
    (v : Int) : List ((String × String) × Int) :=
  ((tenant, metric), v) :: g

/-- Currently exported value of one gauge child. -/
def gaugeGet : List ((String × String) × Int) → String → String → Option Int
  | [], _, _ => none
  | (labels, v) :: rest, tenant, metric =>
      if labels = (tenant, metric) then some v else gaugeGet rest tenant metric

/-- The render path of `GeneralCollector.Collect` for one tenant
(src/unnamed/part_004 lines 449-453): every entry of the stored stats map is
`Set` on the GaugeVec; entries absent from the map are left untouched. -/
def renderStats (g : List ((String × String) × Int)) (tenant : String)
    (stats : List (String × Int)) : List ((String × String) × Int) :=
  stats.foldl (fun g p => gaugeSet g tenant p.1 p.2) g

/-! ## Collector enablement and wiring (`CollectorConfig.IsEnabled`, `main`) -/

/-- `CollectorConfig.IsEnabled` (src/unnamed/part_003 lines 17-19):
`c.ScrapeTime.Seconds() > 0`. `ScrapeTime` is a `time.Duration`, an integer
nanosecond count, and `Seconds()` divides it by 1e9 as float64, which is
positive exactly when the nanosecond count is positive (every positive
duration down to 1ns yields a positive float), so the test is equivalent to
the integer comparison. -/
def IsEnabled (scrapeTimeNs : Int) : Bool :=
  decide (0 < scrapeTimeNs)

/-- The three collector domains that `main` wires up
(src/unnamed/part_000 lines 73-89; the remaining domains are commented out
as not yet implemented). -/
inductive Domain where
  | general
  | users
  | devices
  deriving DecidableEq

/-- Configured scrape intervals (nanoseconds) of the three wired domains. -/
structure ScrapeTimesNs where
  general : Int
  users : Int
  devices : Int
  deriving DecidableEq

/-- Scrape interval of one domain. -/
def domainScrapeTime (cfg : ScrapeTimesNs) : Domain → Int
  | Domain.general => cfg.general
  | Domain.users => cfg.users
  | Domain.devices => cfg.devices

/-- Outcome of the collector wiring in `main`: which domain collectors were
constructed, which had a background refresh loop spawned (the collector
constructor calls `StartCacheInvalidator`), and which were registered with
the Prometheus registry (`MustRegister` registers all metric families the
collector describes). -/
structure SetupResult where
  constructed : List Domain
  loopsSpawned : List Domain
  registered : List Domain
  deriving DecidableEq

/-- The collector wiring of `main` (src/unnamed/part_000 lines 73-89): each
domain guarded by its own `IsEnabled` check; an enabled domain is
constructed (which spawns its loop) and registered, a disabled one is
skipped entirely. -/
def setupCollectors (cfg : ScrapeTimesNs) : SetupResult :=
  let enabled : List Domain :=
    (if IsEnabled cfg.general then [Domain.general] else []) ++
    (if IsEnabled cfg.users then [Domain.users] else []) ++
    (if IsEnabled cfg.devices then [Domain.devices] else [])
  ⟨enabled, enabled, enabled⟩

/-! ## Concrete environments used by witnesses and counterexamples -/

/-- A server whose first page holds one user and announces a next page, and
whose second HTTP call of the cycle fails. -/
def pageTwoFailsEnv : Nat → Option GraphQuery → Except String (Page String) :=
  fun i _ =>
    if i = 0 then Except.ok ⟨some ["u1"], some "page2"⟩
    else Except.error "network error"

/-- The first page of a two-page listing: one user and a continuation
token pointing at the second page. -/
def firstPageAgain : Page String :=
  ⟨some ["u1"], some "skiptoken=2"⟩

/-- A server holding a two-page listing. The second page is reachable only
through the continuation token; the collector only ever issues the
first-page request or the nil request configuration (`none`), and for a
request without a continuation token the server returns the first page. -/
def twoPageServerEnv : Nat → Option GraphQuery → Except String (Page String) :=
  fun _ _ => Except.ok firstPageAgain

/-- An environment whose every call fails; used where the call should be
unreachable. -/
def allFailEnv : Nat → Option GraphQuery → Except String (Page String) :=
  fun _ _ => Except.error "unreachable"

/-- A server returning a single page with a nil value list. -/
def emptyPageEnv : Nat → Option GraphQuery → Except String (Page UserRecord) :=
  fun _ _ => Except.ok ⟨none, none⟩

/-- An Azure environment with ambient tenant "X" and all constructors
succeeding. -/
def allOkEnvX : AzEnv :=
  { azureTenantId := "X"
    newCredential := fun _ => Except.ok ()
    getToken := fun _ => Except.ok ()
    newAuthProvider := Except.ok ()
    newAdapter := Except.ok () }

/-- An Azure environment whose credential construction fails. -/
def credFailEnv : AzEnv :=
  { azureTenantId := ""
    newCredential := fun _ => Except.error "bad secret"
    getToken := fun _ => Except.ok ()
    newAuthProvider := Except.ok ()
    newAdapter := Except.ok () }

/-- The empty client cache at process start. -/
def emptyCache : ClientCacheState :=
  ⟨[], 0⟩

/-- A user record whose displayName pointer is nil but whose other fields
are populated. -/
def userMissingDisplayName : UserRecord :=
  ⟨some "id1", some "upn1", none, some true, some "Member", some "Invitation"⟩

/-- A complete user record, for cache contents in witnesses. -/
def sampleUser : UserRecord :=
  ⟨some "id1", some "upn1", some "User One", some true, some "Member", none⟩

/-- A general-collector cycle in which only the users count sub-fetch fails
and the other four sub-fetches return counts. -/
def oneFailStatsEnv : StatKind → Except String (Option Int)
  | StatKind.users => Except.error "throttled"
  | StatKind.devices => Except.ok (some 5)
  | StatKind.applications => Except.ok (some 7)
  | StatKind.servicePrincipals => Except.ok (some 11)
  | StatKind.groups => Except.ok (some 13)

/-- The counts returned by `oneFailStatsEnv` for the succeeding sub-fetches
(the users entry is irrelevant). -/
def oneFailStatsVal : StatKind → Int
  | StatKind.users => 0
  | StatKind.devices => 5
  | StatKind.applications => 7
  | StatKind.servicePrincipals => 11
  | StatKind.groups => 13

/-- A gauge state in which an earlier scrape exported user_count 42 for
tenant "t1". -/
def staleGauge : List ((String × String) × Int) :=
  [(("t1", "user_count"), 42)]

/-! ## Theorems -/

/-- C1, counterexample: in a cycle whose first page holds user "u1" with a
next link and whose second page fetch fails, the tenant cache entry is
overwritten with the partial list ["u1"] instead of being left at its
previous value ["old"], refuting the claim that a fetch error after the
first page leaves the cached entry exactly as it was and discards the
already fetched pages. -/
theorem pageError_overwrites_cache_cex :
    applyCycle (some ["old"])
        (collectPaginated usersFirstRequest (Except.ok ()) pageTwoFailsEnv 5)
      = some ["u1"] ∧
    applyCycle (some ["old"])
        (collectPaginated usersFirstRequest (Except.ok ()) pageTwoFailsEnv 5)
      ≠ some ["old"] := by
  constructor <;> decide

/-- C1 (amended): for the users and devices collectors, if fetching a page
after the first fails, the cycle aborts the remaining pagination and
increments the error counter, but the pages already fetched are NOT
discarded: the partially accumulated list (here, exactly the first page) is
written to the snapshot cache, replacing the previous entry, and the scrape
metrics are recorded as on success. -/
theorem pageError_stores_incomplete_pages {α : Type}
    (firstReq : GraphQuery)
    (env : Nat → Option GraphQuery → Except String (Page α))
    (fuel : Nat) (prev : Option (List α)) (p : Page α) (e : String)
    (h0 : env 0 (some firstReq) = Except.ok p)
    (hnl : hasNextLink p = true)
    (h1 : env 1 none = Except.error e) :
    (collectPaginated firstReq (Except.ok ()) env (fuel + 1)).cacheWrite
        = some (p.value.getD []) ∧
    (collectPaginated firstReq (Except.ok ()) env (fuel + 1)).scrapeErrorsInc
        = 1 ∧
    applyCycle prev (collectPaginated firstReq (Except.ok ()) env (fuel + 1))
        = some (p.value.getD []) ∧
    (collectPaginated firstReq (Except.ok ()) env (fuel + 1)).scrapeMetricsRecorded
        = true := by
  simp [collectPaginated, h0, pageLoop, hnl, h1, applyCycle]

/-- C1 witness: the amended theorem applied to the concrete failing cycle of
the counterexample. -/
theorem pageError_stores_incomplete_pages_witness :
    (pageTwoFailsEnv 0 (some usersFirstRequest)
        = Except.ok ⟨some ["u1"], some "page2"⟩ ∧
     hasNextLink (α := String) ⟨some ["u1"], some "page2"⟩ = true ∧
     pageTwoFailsEnv 1 none = Except.error "network error") ∧
    ((collectPaginated usersFirstRequest (Except.ok ()) pageTwoFailsEnv (4 + 1)).cacheWrite
        = some ((Page.mk (some ["u1"]) (some "page2")).value.getD []) ∧
     (collectPaginated usersFirstRequest (Except.ok ()) pageTwoFailsEnv (4 + 1)).scrapeErrorsInc
        = 1 ∧
     applyCycle (some ["old"])
        (collectPaginated usersFirstRequest (Except.ok ()) pageTwoFailsEnv (4 + 1))
        = some ((Page.mk (some ["u1"]) (some "page2")).value.getD []) ∧
     (collectPaginated usersFirstRequest (Except.ok ()) pageTwoFailsEnv (4 + 1)).scrapeMetricsRecorded
        = true) :=
  ⟨⟨rfl, by decide, rfl⟩,
   pageError_stores_incomplete_pages usersFirstRequest pageTwoFailsEnv 4
     (some ["old"]) ⟨some ["u1"], some "page2"⟩ "network error" rfl (by decide) rfl⟩

/-- Helper for C2: against the two-page server, the pagination loop never
terminates. Every request it issues is the nil request configuration, which
the server answers with the first page again, whose next link keeps the loop
going; the loop therefore exhausts any amount of fuel without an error and
without reaching the second page. -/
theorem pageLoop_twoPageServer :
    ∀ (fuel i : Nat) (acc : List String),
      (pageLoop twoPageServerEnv fuel i firstPageAgain acc).exit
          = LoopExit.fuelOut ∧
      (pageLoop twoPageServerEnv fuel i firstPageAgain acc).requests
          = List.replicate fuel none ∧
      (pageLoop twoPageServerEnv fuel i firstPageAgain acc).errInc = 0 := by
  have hnl : hasNextLink (α := String) firstPageAgain = true := by decide
  intro fuel
  induction fuel with
  | zero => intro i acc; simp [pageLoop, hnl]
  | succ f ih =>
      intro i acc
      have h := ih (i + 1) (acc ++ firstPageAgain.value.getD [])
      simp [pageLoop, hnl, twoPageServerEnv, List.replicate, h.1, h.2.1, h.2.2]

/-- C2: the claim fails on the code - the pagination loop does not fetch the
page designated by the continuation token. Evaluated at a two-page listing:
the only requests issued are the first-page request followed by the nil
request configuration over and over (the continuation token is never passed
on), the loop runs forever (exhausts any fuel), and nothing is ever stored
for the tenant, instead of the in-order concatenation of the two pages. -/
theorem nextPage_request_ignores_continuation (fuel : Nat) :
    (collectPaginated usersFirstRequest (Except.ok ()) twoPageServerEnv fuel).cacheWrite
        = none ∧
    (collectPaginated usersFirstRequest (Except.ok ()) twoPageServerEnv fuel).scrapeMetricsRecorded
        = false ∧
    (collectPaginated usersFirstRequest (Except.ok ()) twoPageServerEnv fuel).requests
        = some usersFirstRequest :: List.replicate fuel none ∧
    (collectPaginated usersFirstRequest (Except.ok ()) twoPageServerEnv fuel).scrapeErrorsInc
        = 0 := by
  have h := pageLoop_twoPageServer fuel 1 (firstPageAgain.value.getD [])
  simp [collectPaginated, twoPageServerEnv, h.1, h.2.1, h.2.2]

/-- C8, counterexample: for a tenant whose Graph client acquisition fails,
the cycle increments the error counter but records neither the scrape
duration nor the last-scrape-time metric, refuting the claim that those
metrics are recorded regardless of the outcome. -/
theorem client_error_skips_scrape_metrics_cex :
    (collectPaginated usersFirstRequest (Except.error "credential failure")
        allFailEnv 3).scrapeMetricsRecorded = false ∧
    (collectPaginated usersFirstRequest (Except.error "credential failure")
        allFailEnv 3).scrapeErrorsInc = 1 :=
  ⟨rfl, rfl⟩

/-- C8 (amended): the scrape-duration and last-scrape-time metrics are
recorded for a tenant exactly when the cycle reaches the snapshot-cache
store for that tenant; in particular, when obtaining the Graph client fails,
or when fetching the first page fails, the error counter is incremented and
the scrape metrics are not recorded for that tenant in that cycle. -/
theorem scrape_metrics_recorded_iff_cache_written {α : Type}
    (firstReq : GraphQuery) (client : Except String Unit)
    (env : Nat → Option GraphQuery → Except String (Page α))
    (fuel : Nat) (e m : String) :
    ((collectPaginated firstReq client env fuel).scrapeMetricsRecorded
        = (collectPaginated firstReq client env fuel).cacheWrite.isSome) ∧
    collectPaginated (α := α) firstReq (Except.error e) env fuel
        = ⟨[], 1, none, false⟩ ∧
    collectPaginated (α := α) firstReq (Except.ok ())
        (fun _ _ => Except.error m) fuel
        = ⟨[some firstReq], 1, none, false⟩ := by
  refine ⟨?_, rfl, rfl⟩
  cases client with
  | error e' => rfl
  | ok u =>
    cases h : env 0 (some firstReq) with
    | error e' => simp [collectPaginated, h]
    | ok p =>
      by_cases hx :
          (pageLoop env fuel 1 p (p.value.getD [])).exit = LoopExit.fuelOut <;>
        simp [collectPaginated, h, hx]

/-- C10: if a collect cycle completes without a fetch error but the API
returns zero entities (a nil or empty value list and no next link), the
tenant cache entry is replaced by the empty list regardless of its previous
contents, and the next render exposes an entity total of 0 for the tenant
instead of retaining the previous snapshot. -/
theorem empty_result_replaces_cache_with_empty
    (env : Nat → Option GraphQuery → Except String (Page UserRecord))
    (fuel : Nat) (prev : Option (List UserRecord)) (p : Page UserRecord)
    (h0 : env 0 (some usersFirstRequest) = Except.ok p)
    (hval : p.value = none ∨ p.value = some [])
    (hnl : hasNextLink p = false) :
    (collectPaginated usersFirstRequest (Except.ok ()) env fuel).cacheWrite
        = some [] ∧
    (collectPaginated usersFirstRequest (Except.ok ()) env fuel).scrapeErrorsInc
        = 0 ∧
    applyCycle prev (collectPaginated usersFirstRequest (Except.ok ()) env fuel)
        = some [] ∧
    (applyCycle prev
        (collectPaginated usersFirstRequest (Except.ok ()) env fuel)).map
          renderUsersTotal = some 0 := by
  have hv : p.value.getD [] = [] := by rcases hval with h | h <;> simp [h]
  have hloop : pageLoop env fuel 1 p [] = ⟨[], 0, [], LoopExit.normal⟩ := by
    cases fuel <;> simp [pageLoop, hnl]
  simp [collectPaginated, h0, hv, hloop, applyCycle, renderUsersTotal]

/-- C10 witness: the theorem applied to a server answering with a nil value
list, starting from a cache holding a non-empty previous snapshot. -/
theorem empty_result_replaces_cache_with_empty_witness :
    (emptyPageEnv 0 (some usersFirstRequest)
        = Except.ok ⟨none, none⟩ ∧
     ((Page.mk none none : Page UserRecord).value = none ∨
        (Page.mk none none : Page UserRecord).value = some []) ∧
     hasNextLink (Page.mk none none : Page UserRecord) = false) ∧
    ((collectPaginated usersFirstRequest (Except.ok ()) emptyPageEnv 3).cacheWrite
        = some [] ∧
     (collectPaginated usersFirstRequest (Except.ok ()) emptyPageEnv 3).scrapeErrorsInc
        = 0 ∧
     applyCycle (some [sampleUser])
        (collectPaginated usersFirstRequest (Except.ok ()) emptyPageEnv 3)
        = some [] ∧
     (applyCycle (some [sampleUser])
        (collectPaginated usersFirstRequest (Except.ok ()) emptyPageEnv 3)).map
          renderUsersTotal = some 0) :=
  ⟨⟨rfl, Or.inl rfl, rfl⟩,
   empty_result_replaces_cache_with_empty emptyPageEnv 3 (some [sampleUser])
     ⟨none, none⟩ rfl (Or.inl rfl) rfl⟩

/-- Helper for C3: every scheduled cycle of the background loop actually
runs, whatever mixture of normal and panicking outcomes the schedule holds. -/
theorem countCycles_invalidatorTrace (st : Int) (sched : List CycleResult) :
    countCycles (invalidatorTrace st sched) = sched.length := by
  induction sched with
  | nil => rfl
  | cons c rest ih =>
      cases c <;> simp [invalidatorTrace, countCycles, List.filter, isRun] <;>
        simpa [countCycles, List.filter] using ih

/-- C3: a panic raised inside one collect cycle is caught inside the loop by
the per-cycle recover, the perpetual loop spawned by StartCacheInvalidator
is not terminated, and the next cycle runs only after the normal sleep of
the configured scrape interval (not immediately): the trace of a schedule
whose first cycle panics is the recovered cycle, then the sleep, then the
trace of the remaining schedule, and every scheduled cycle still runs. -/
theorem panic_in_cycle_loop_continues_after_sleep (st : Int) (m : String)
    (rest : List CycleResult) :
    invalidatorTrace st (CycleResult.panicked m :: rest)
        = LoopEvent.collectRun :: LoopEvent.panicRecovered m ::
            LoopEvent.slept st :: invalidatorTrace st rest ∧
    countCycles (invalidatorTrace st (CycleResult.panicked m :: rest))
        = rest.length + 1 := by
  refine ⟨rfl, ?_⟩
  simpa using countCycles_invalidatorTrace st (CycleResult.panicked m :: rest)

/-- C4, counterexample: with a non-empty ambient AZURE_TENANT_ID ("X"), a
call of GetGraphClient for the empty-string tenant sentinel succeeds, but
the client is stored under the resolved tenant "X" while the cache lookups
use the original empty string; hence the next call for the same tenant
misses the cache and constructs a second client - the two callers observe
different instances and two underlying clients are constructed, refuting
idempotence as claimed. -/
theorem getGraphClient_empty_tenant_reconstructs_cex :
    (getGraphClient allOkEnvX emptyCache "").1 = Except.ok 0 ∧
    (getGraphClient allOkEnvX (getGraphClient allOkEnvX emptyCache "").2 "").1
        = Except.ok 1 ∧
    (getGraphClient allOkEnvX
        (getGraphClient allOkEnvX emptyCache "").2 "").2.constructions = 2 :=
  ⟨rfl, rfl, rfl⟩

/-- C4 (amended): client creation is idempotent for every non-empty tenant
id, and for the empty sentinel when no ambient tenant is configured - the
cases in which the store key equals the lookup key. Once a call for such a
tenant succeeds, the client is cached under that tenant, every later call
(under any identity environment, calls being serialized by the client-cache
lock) returns the same instance with the cache unchanged, a first-time call
performs exactly one construction, and a cache-hit call performs none. For
the empty sentinel with a non-empty ambient tenant this fails (see the
counterexample). -/
theorem getGraphClient_idempotent_nonempty_tenant
    (env env2 : AzEnv) (s : ClientCacheState) (t : String) (cl : Nat)
    (s' : ClientCacheState)
    (ht : t ≠ "" ∨ env.azureTenantId = "")
    (h : getGraphClient env s t = (Except.ok cl, s')) :
    lookupClient s' t = some cl ∧
    getGraphClient env2 s' t = (Except.ok cl, s') ∧
    (lookupClient s t = none → s'.constructions = s.constructions + 1) ∧
    (lookupClient s t = some cl → s' = s) := by
  cases hl : lookupClient s t with
  | some c0 =>
      simp [getGraphClient, hl] at h
      obtain ⟨h1, h2⟩ := h
      subst h1; subst h2
      exact ⟨hl, by simp [getGraphClient, hl], fun h' => Option.noConfusion h',
             fun _ => rfl⟩
  | none =>
      have htid : resolveTenant env t = t := by
        rcases ht with h1 | h1
        · simp [resolveTenant, h1]
        · rcases eq_or_ne t "" with h2 | h2 <;> simp [resolveTenant, h1, h2]
      cases hcred : env.newCredential t with
      | error m2 => simp [getGraphClient, hl, htid, hcred] at h
      | ok u1 =>
        cases htok : env.getToken t with
        | error m2 => simp [getGraphClient, hl, htid, hcred, htok] at h
        | ok u2 =>
          cases hap : env.newAuthProvider with
          | error m2 => simp [getGraphClient, hl, htid, hcred, htok, hap] at h
          | ok u3 =>
            cases had : env.newAdapter with
            | error m2 =>
                simp [getGraphClient, hl, htid, hcred, htok, hap, had] at h
            | ok u4 =>
                simp [getGraphClient, hl, htid, hcred, htok, hap, had] at h
                obtain ⟨h1, h2⟩ := h
                subst h1
                subst h2
                refine ⟨?_, ?_, fun _ => rfl, fun h' => ?_⟩
                · simp [lookupClient, List.find?]
                · have hl2 : lookupClient
                      (ClientCacheState.mk ((t, s.constructions) :: s.clients)
                        (s.constructions + 1)) t = some s.constructions := by
                    simp [lookupClient, List.find?]
                  simp [getGraphClient, hl2]
                · exact Option.noConfusion h'

/-- C4 witness: the amended theorem applied to the non-empty tenant "t1"
starting from the empty cache. -/
theorem getGraphClient_idempotent_nonempty_tenant_witness :
    ((("t1" : String) ≠ "" ∨ allOkEnvX.azureTenantId = "") ∧
     getGraphClient allOkEnvX emptyCache "t1"
        = (Except.ok 0, ⟨[("t1", 0)], 1⟩)) ∧
    (lookupClient ⟨[("t1", 0)], 1⟩ "t1" = some 0 ∧
     getGraphClient allOkEnvX ⟨[("t1", 0)], 1⟩ "t1"
        = (Except.ok 0, ⟨[("t1", 0)], 1⟩) ∧
     (lookupClient emptyCache "t1" = none →
        (ClientCacheState.mk [("t1", 0)] 1).constructions
          = emptyCache.constructions + 1) ∧
     (lookupClient emptyCache "t1" = some 0 →
        ClientCacheState.mk [("t1", 0)] 1 = emptyCache)) :=
  ⟨⟨Or.inl (by decide), rfl⟩,
   getGraphClient_idempotent_nonempty_tenant allOkEnvX allOkEnvX emptyCache
     "t1" 0 ⟨[("t1", 0)], 1⟩ (Or.inl (by decide)) rfl⟩

/-- C6: on a cache miss, a credential-construction failure and a
token-validation failure surface as two distinct errors (distinct
constructors of ClientError), in either case the cache is returned
untouched (no entry is stored for the tenant), and a subsequent call for
the tenant attempts client creation again - under an identity environment
whose constructors succeed it constructs a client (exactly one new
construction). -/
theorem getGraphClient_failure_distinct_and_not_cached
    (env : AzEnv) (s : ClientCacheState) (t : String) (m m2 : String)
    (hl : lookupClient s t = none) :
    (env.newCredential (resolveTenant env t) = Except.error m →
        getGraphClient env s t
          = (Except.error (ClientError.credentialError m), s)) ∧
    (env.newCredential (resolveTenant env t) = Except.ok () →
      env.getToken (resolveTenant env t) = Except.error m →
        getGraphClient env s t
          = (Except.error (ClientError.tokenError m), s)) ∧
    ClientError.credentialError m ≠ ClientError.tokenError m2 ∧
    (∀ env2, envAllOk env2 →
        (getGraphClient env2 s t).1 = Except.ok s.constructions ∧
        (getGraphClient env2 s t).2.constructions = s.constructions + 1) := by
  refine ⟨?_, ?_, ?_, ?_⟩
  · intro hc; simp [getGraphClient, hl, hc]
  · intro hc htk; simp [getGraphClient, hl, hc, htk]
  · intro h; exact ClientError.noConfusion h
  · intro env2 hall
    obtain ⟨h1, h2, h3, h4⟩ := hall
    simp [getGraphClient, hl, h1, h2, h3, h4]

/-- C6 witness: the theorem applied to the empty cache, the tenant "t1" and
an identity environment whose credential construction fails. -/
theorem getGraphClient_failure_distinct_and_not_cached_witness :
    lookupClient emptyCache "t1" = none ∧
    ((credFailEnv.newCredential (resolveTenant credFailEnv "t1")
        = Except.error "bad secret" →
      getGraphClient credFailEnv emptyCache "t1"
        = (Except.error (ClientError.credentialError "bad secret"), emptyCache)) ∧
     (credFailEnv.newCredential (resolveTenant credFailEnv "t1")
        = Except.ok () →
      credFailEnv.getToken (resolveTenant credFailEnv "t1")
          = Except.error "bad secret" →
      getGraphClient credFailEnv emptyCache "t1"
        = (Except.error (ClientError.tokenError "bad secret"), emptyCache)) ∧
     ClientError.credentialError "bad secret"
        ≠ ClientError.tokenError "token denied" ∧
     (∀ env2, envAllOk env2 →
        (getGraphClient env2 emptyCache "t1").1
            = Except.ok emptyCache.constructions ∧
        (getGraphClient env2 emptyCache "t1").2.constructions
            = emptyCache.constructions + 1)) :=
  ⟨rfl, getGraphClient_failure_distinct_and_not_cached credFailEnv emptyCache
      "t1" "bad secret" "token denied" rfl⟩

/-- C5, counterexample: rendering faults on a cached user record whose
displayName is absent (the Go code dereferences `*user.GetDisplayName()`
without a nil check), although all remaining fields are present - refuting
the claim that rendering substitutes a placeholder for every absent field
and never faults on a record with absent fields. -/
theorem renderUserInfo_faults_on_missing_displayName_cex :
    renderUserInfo "t1" userMissingDisplayName = none :=
  rfl

/-- C5 (amended): rendering substitutes placeholders only for the optional
accountEnabled ("false" when absent or false), userType and creationType
("unknown" when absent) fields; the id, userPrincipalName and displayName
fields are dereferenced without nil checks, so rendering faults on a record
missing any of those three, and on records with those three present it
never faults - in particular a record with accountEnabled absent renders
the account_enabled label value "false". -/
theorem renderUserInfo_placeholders_when_core_present
    (t uid upn dn : String) (ae : Option Bool) (ut ct : Option String) :
    renderUserInfo t ⟨some uid, some upn, some dn, ae, ut, ct⟩
        = some ⟨t, uid, upn, dn,
            (match ae with | some true => "true" | _ => "false"),
            ut.getD "unknown", ct.getD "unknown"⟩ ∧
    renderUserInfo t ⟨some uid, some upn, some dn, none, none, none⟩
        = some ⟨t, uid, upn, dn, "false", "unknown", "unknown"⟩ := by
  constructor
  · cases ae with
    | none => rfl
    | some b => cases b <;> rfl
  · rfl

/-- C7: in the general collector, when one of the five count sub-fetches
fails and the other four succeed, exactly one error-counter increment is
recorded, the stored stats map lacks only the failed statistic and holds
the four fetched counts, and after rendering the failed statistic still
exposes whatever value the gauge held before (stale) while the other four
expose their fresh counts. -/
theorem general_subfetch_failure_independent
    (env : StatKind → Except String (Option Int)) (k : StatKind) (m : String)
    (n : StatKind → Int) (t : String) (g : List ((String × String) × Int))
    (hk : env k = Except.error m)
    (hok : ∀ k2, k2 ≠ k → env k2 = Except.ok (some (n k2))) :
    (collectGeneralTenant env).2 = 1 ∧
    lookupStat (collectGeneralTenant env).1 (statKey k) = none ∧
    (∀ k2, k2 ≠ k →
        lookupStat (collectGeneralTenant env).1 (statKey k2) = some (n k2)) ∧
    gaugeGet (renderStats g t (collectGeneralTenant env).1) t (statKey k)
        = gaugeGet g t (statKey k) ∧
    (∀ k2, k2 ≠ k →
        gaugeGet (renderStats g t (collectGeneralTenant env).1) t (statKey k2)
          = some (n k2)) := by
  cases k with
  | users =>
      have h1 := hok StatKind.devices (by decide)
      have h2 := hok StatKind.applications (by decide)
      have h3 := hok StatKind.servicePrincipals (by decide)
      have h4 := hok StatKind.groups (by decide)
      refine ⟨?_, ?_, fun k2 hne => ?_, ?_, fun k2 hne => ?_⟩
      · simp [collectGeneralTenant, statKinds, hk, h1, h2, h3, h4]
      · simp [collectGeneralTenant, statKinds, hk, h1, h2, h3, h4, statKey,
              lookupStat]
      · cases k2 <;>
          first
            | exact absurd rfl hne
            | simp [collectGeneralTenant, statKinds, hk, h1, h2, h3, h4,
                    statKey, lookupStat]
      · simp [collectGeneralTenant, statKinds, hk, h1, h2, h3, h4, statKey,
              lookupStat, renderStats, gaugeSet, gaugeGet]
      · cases k2 <;>
          first
            | exact absurd rfl hne
            | simp [collectGeneralTenant, statKinds, hk, h1, h2, h3, h4,
                    statKey, lookupStat, renderStats, gaugeSet, gaugeGet]
  | devices =>
      have h1 := hok StatKind.users (by decide)
      have h2 := hok StatKind.applications (by decide)
      have h3 := hok StatKind.servicePrincipals (by decide)
      have h4 := hok StatKind.groups (by decide)
      refine ⟨?_, ?_, fun k2 hne => ?_, ?_, fun k2 hne => ?_⟩
      · simp [collectGeneralTenant, statKinds, hk, h1, h2, h3, h4]
      · simp [collectGeneralTenant, statKinds, hk, h1, h2, h3, h4, statKey,
              lookupStat]
      · cases k2 <;>
          first
            | exact absurd rfl hne
            | simp [collectGeneralTenant, statKinds, hk, h1, h2, h3, h4,
                    statKey, lookupStat]
      · simp [collectGeneralTenant, statKinds, hk, h1, h2, h3, h4, statKey,
              lookupStat, renderStats, gaugeSet, gaugeGet]
      · cases k2 <;>
          first
            | exact absurd rfl hne
            | simp [collectGeneralTenant, statKinds, hk, h1, h2, h3, h4,
                    statKey, lookupStat, renderStats, gaugeSet, gaugeGet]
  | applications =>
      have h1 := hok StatKind.users (by decide)
      have h2 := hok StatKind.devices (by decide)
      have h3 := hok StatKind.servicePrincipals (by decide)
      have h4 := hok StatKind.groups (by decide)
      refine ⟨?_, ?_, fun k2 hne => ?_, ?_, fun k2 hne => ?_⟩
      · simp [collectGeneralTenant, statKinds, hk, h1, h2, h3, h4]
      · simp [collectGeneralTenant, statKinds, hk, h1, h2, h3, h4, statKey,
              lookupStat]
      · cases k2 <;>
          first
            | exact absurd rfl hne
            | simp [collectGeneralTenant, statKinds, hk, h1, h2, h3, h4,
                    statKey, lookupStat]
      · simp [collectGeneralTenant, statKinds, hk, h1, h2, h3, h4, statKey,
              lookupStat, renderStats, gaugeSet, gaugeGet]
      · cases k2 <;>
          first
            | exact absurd rfl hne
            | simp [collectGeneralTenant, statKinds, hk, h1, h2, h3, h4,
                    statKey, lookupStat, renderStats, gaugeSet, gaugeGet]
  | servicePrincipals =>
      have h1 := hok StatKind.users (by decide)
      have h2 := hok StatKind.devices (by decide)
      have h3 := hok StatKind.applications (by decide)
      have h4 := hok StatKind.groups (by decide)
      refine ⟨?_, ?_, fun k2 hne => ?_, ?_, fun k2 hne => ?_⟩
      · simp [collectGeneralTenant, statKinds, hk, h1, h2, h3, h4]
      · simp [collectGeneralTenant, statKinds, hk, h1, h2, h3, h4, statKey,
              lookupStat]
      · cases k2 <;>
          first
            | exact absurd rfl hne
            | simp [collectGeneralTenant, statKinds, hk, h1, h2, h3, h4,
                    statKey, lookupStat]
      · simp [collectGeneralTenant, statKinds, hk, h1, h2, h3, h4, statKey,
              lookupStat, renderStats, gaugeSet, gaugeGet]
      · cases k2 <;>
          first
            | exact absurd rfl hne
            | simp [collectGeneralTenant, statKinds, hk, h1, h2, h3, h4,
                    statKey, lookupStat, renderStats, gaugeSet, gaugeGet]
  | groups =>
      have h1 := hok StatKind.users (by decide)
      have h2 := hok StatKind.devices (by decide)
      have h3 := hok StatKind.applications (by decide)
      have h4 := hok StatKind.servicePrincipals (by decide)
      refine ⟨?_, ?_, fun k2 hne => ?_, ?_, fun k2 hne => ?_⟩
      · simp [collectGeneralTenant, statKinds, hk, h1, h2, h3, h4]
      · simp [collectGeneralTenant, statKinds, hk, h1, h2, h3, h4, statKey,
              lookupStat]
      · cases k2 <;>
          first
            | exact absurd rfl hne
            | simp [collectGeneralTenant, statKinds, hk, h1, h2, h3, h4,
                    statKey, lookupStat]
      · simp [collectGeneralTenant, statKinds, hk, h1, h2, h3, h4, statKey,
              lookupStat, renderStats, gaugeSet, gaugeGet]
      · cases k2 <;>
          first
            | exact absurd rfl hne
            | simp [collectGeneralTenant, statKinds, hk, h1, h2, h3, h4,
                    statKey, lookupStat, renderStats, gaugeSet, gaugeGet]

/-- C7 witness: the theorem applied to a cycle in which only the users
count sub-fetch fails, rendering into a gauge that exported user_count 42
for tenant "t1" in an earlier scrape. -/
theorem general_subfetch_failure_independent_witness :
    (oneFailStatsEnv StatKind.users = Except.error "throttled" ∧
     (∀ k2, k2 ≠ StatKind.users →
        oneFailStatsEnv k2 = Except.ok (some (oneFailStatsVal k2)))) ∧
    ((collectGeneralTenant oneFailStatsEnv).2 = 1 ∧
     lookupStat (collectGeneralTenant oneFailStatsEnv).1
        (statKey StatKind.users) = none ∧
     (∀ k2, k2 ≠ StatKind.users →
        lookupStat (collectGeneralTenant oneFailStatsEnv).1 (statKey k2)
          = some (oneFailStatsVal k2)) ∧
     gaugeGet (renderStats staleGauge "t1"
        (collectGeneralTenant oneFailStatsEnv).1) "t1"
        (statKey StatKind.users)
        = gaugeGet staleGauge "t1" (statKey StatKind.users) ∧
     (∀ k2, k2 ≠ StatKind.users →
        gaugeGet (renderStats staleGauge "t1"
          (collectGeneralTenant oneFailStatsEnv).1) "t1" (statKey k2)
          = some (oneFailStatsVal k2))) :=
  ⟨⟨rfl, fun k2 hne => by
      cases k2 <;> first | exact absurd rfl hne | rfl⟩,
   general_subfetch_failure_independent oneFailStatsEnv StatKind.users
     "throttled" oneFailStatsVal "t1" staleGauge rfl
     (fun k2 hne => by cases k2 <;> first | exact absurd rfl hne | rfl)⟩

/-- C9: a domain whose configured scrape interval is less than or equal to
zero is disabled: IsEnabled returns false, the domain collector is never
constructed, no background refresh loop is spawned for it, and none of its
metric families are registered with the registry. -/
theorem disabled_domain_not_constructed
    (cfg : ScrapeTimesNs) (d : Domain)
    (h : domainScrapeTime cfg d ≤ 0) :
    IsEnabled (domainScrapeTime cfg d) = false ∧
    d ∉ (setupCollectors cfg).constructed ∧
    d ∉ (setupCollectors cfg).loopsSpawned ∧
    d ∉ (setupCollectors cfg).registered := by
  cases d with
  | general =>
      have h' : cfg.general ≤ 0 := h
      have hF : IsEnabled cfg.general = false := by simp [IsEnabled]; omega
      refine ⟨hF, ?_, ?_, ?_⟩ <;>
        · cases hU : IsEnabled cfg.users <;>
            cases hD : IsEnabled cfg.devices <;>
              simp [setupCollectors, hF, hU, hD]
  | users =>
      have h' : cfg.users ≤ 0 := h
      have hF : IsEnabled cfg.users = false := by simp [IsEnabled]; omega
      refine ⟨hF, ?_, ?_, ?_⟩ <;>
        · cases hG : IsEnabled cfg.general <;>
            cases hD : IsEnabled cfg.devices <;>
              simp [setupCollectors, hF, hG, hD]
  | devices =>
      have h' : cfg.devices ≤ 0 := h
      have hF : IsEnabled cfg.devices = false := by simp [IsEnabled]; omega
      refine ⟨hF, ?_, ?_, ?_⟩ <;>
        · cases hG : IsEnabled cfg.general <;>
            cases hU : IsEnabled cfg.users <;>
              simp [setupCollectors, hF, hG, hU]

/-- C9 witness: the theorem applied to a configuration in which the general
domain has interval 0 while users and devices are enabled. -/
theorem disabled_domain_not_constructed_witness :
    domainScrapeTime ⟨0, 5, 5⟩ Domain.general ≤ 0 ∧
    (IsEnabled (domainScrapeTime ⟨0, 5, 5⟩ Domain.general) = false ∧
     Domain.general ∉ (setupCollectors ⟨0, 5, 5⟩).constructed ∧
     Domain.general ∉ (setupCollectors ⟨0, 5, 5⟩).loopsSpawned ∧
     Domain.general ∉ (setupCollectors ⟨0, 5, 5⟩).registered) :=
  ⟨by decide,
   disabled_domain_not_constructed ⟨0, 5, 5⟩ Domain.general (by decide)⟩

end EntraExporter
